import Mathlib

/-!
Verification of the mi-gpt streaming answer pipeline.

Shallow embedding of the two source files:
* `src/services/speaker/ai.ts` — the `AISpeaker` command router, the six-step
  answer pipeline with its supersession guard, and `MyBot.chatWithStreamResponse`;
* the `OpenAIClient` (`src/services/openai.ts`) — `chat`, `chatStream` and the
  `_abortCallbacks` registry.

Side effects (speaking, waking the device, invoking the model, invoking abort
callbacks) are recorded in explicit effect traces; asynchronous interleavings
(a new user message arriving, an external `cancel` racing the chunk loop) are
modelled by boolean oracles indexed by the checkpoint or chunk position at
which the code reads the shared state.
-/

namespace MiGPT

/-- An inbound user message (`QueryMessage` in `speaker.ts`): the utterance
text and its timestamp. -/
structure QueryMessage where
  text : String
  timestamp : Nat
deriving DecidableEq, Repr

/-- An answer returned by `askAI` (`SpeakerAnswer`): optional full text and an
optional stream handle (identified here by a numeric token). -/
structure SpeakerAnswer where
  text : Option String := none
  stream : Option Nat := none
deriving DecidableEq, Repr

/-- Argument object passed to `Speaker.response` by the code under scrutiny. -/
structure RespondArgs where
  text : Option String := none
  audio : Option String := none
  keepAlive : Option Bool := none
  playSFX : Option Bool := none
deriving DecidableEq, Repr

/-- Observable side effects of the embedded code. -/
inductive Effect where
  | respond (args : RespondArgs)
  | respondAnswer (a : SpeakerAnswer)
  | askAI (msg : QueryMessage)
  | wakeUp
  | unWakeUp
  | superEnterKeepAlive
  | cancelRequest (id : String)
  | addResponse (text : String)
  | onStream (text : String)
  | invokeAbort (cb : Nat)
deriving DecidableEq, Repr

/-! ## The abort-callback registry (`OpenAIClient._abortCallbacks`)

A JavaScript `Record<string, VoidFunction>` with unique keys; callbacks are
identified by numeric tokens, and invoking one is recorded as an
`Effect.invokeAbort` effect. -/

/-- The `_abortCallbacks` record: an association list with unique keys. -/
abbrev Registry := List (String × Nat)

/-- Reading `_abortCallbacks[requestId]`. -/
def lookupCb : Registry → String → Option Nat
  | [], _ => none
  | (k, v) :: rest, id => if k = id then some v else lookupCb rest id

/-- Writing `_abortCallbacks[requestId] = cb` (overwrites an existing key). -/
def setCb : Registry → String → Nat → Registry
  | [], id, v => [(id, v)]
  | (k, w) :: rest, id, v =>
    if k = id then (id, v) :: rest else (k, w) :: setCb rest id v

/-- Executing `delete _abortCallbacks[requestId]`. -/
def eraseCb (r : Registry) (id : String) : Registry :=
  r.filter (fun e => e.1 != id)

theorem lookupCb_eraseCb (r : Registry) (id : String) :
    lookupCb (eraseCb r id) id = none := by
  induction r with
  | nil => rfl
  | cons e rest ih =>
    simp only [eraseCb, List.filter_cons] at ih ⊢
    by_cases h : e.1 = id
    · simp [h, ih]
    · simp [h, lookupCb, ih]

theorem lookupCb_setCb (r : Registry) (id : String) (v : Nat) :
    lookupCb (setCb r id v) id = some v := by
  induction r with
  | nil => simp [setCb, lookupCb]
  | cons e rest ih =>
    by_cases h : e.1 = id
    · simp [setCb, h, lookupCb]
    · simp only [setCb, if_neg h, lookupCb, if_neg h, ih]

/-- Embedding of `OpenAIClient.cancel(requestId)`: if a callback is registered
under `requestId` it is invoked and its entry deleted; otherwise nothing
happens. Returns the new registry and the trace of invoked callbacks. -/
def OpenAIClient.cancel (r : Registry) (requestId : String) :
    Registry × List Effect :=
  match lookupCb r requestId with
  | some cb => (eraseCb r requestId, [Effect.invokeAbort cb])
  | none => (r, [])

/-- Environment of one `OpenAIClient.chat` call: the completion returned by the
provider (`none` when the request failed and the `catch` handler returned
`null`), and whether an external `cancel` ran while the call was awaited. -/
structure ChatEnv where
  createResult : Option String := none
  abortedDuring : Bool := false
deriving Repr

/-- Embedding of `OpenAIClient.chat`: registers an abort callback when a
`requestId` is supplied, awaits the completion (during which an external
`cancel` may erase the entry), then unconditionally deletes the entry for
`requestId` before returning the message. -/
def OpenAIClient.chat (r : Registry) (requestId : Option String) (cb : Nat)
    (env : ChatEnv) : Registry × Option String :=
  let r1 := match requestId with
    | some id => setCb r id cb
    | none => r
  let r2 := if env.abortedDuring then
      (match requestId with
       | some id => (OpenAIClient.cancel r1 id).1
       | none => r1)
    else r1
  let r3 := match requestId with
    | some id => eraseCb r2 id
    | none => r2
  (r3, env.createResult)

/-- Modelled from the spec: `withDefault` (defined in `src/utils/base`, which is
absent from `src/`) returns the fallback when the value is empty, so an empty
accumulated string becomes `undefined` ("returns undefined rather than partial
text"). -/
def withDefault (v : String) (d : Option String) : Option String :=
  if v = "" then d else some v

/-- Environment of one `OpenAIClient.chatStream` call: whether the provider
accepted the streaming request (`false` models the `catch`-to-`null` early
return), the delta contents of the chunks the provider would deliver, and the
chunk index from which the registry entry for this request id has been removed
by an external `cancel` (`none` when no cancellation occurs). -/
structure ChatStreamEnv where
  streamOk : Bool := true
  chunks : List String := []
  cancelAt : Option Nat := none
deriving Repr

/-- Chunk-consumption loop of `chatStream`: for each chunk, first the abort
check (`requestId` no longer among the registry keys) — on abort the content is
reset to the empty string and the loop breaks — then, if the delta text is
nonempty, `onStream` is called and the text appended to the accumulator. -/
def chatStreamLoop (canceledBefore : Nat → Bool) :
    List String → Nat → String → String × List Effect
  | [], _, content => (content, [])
  | chunk :: rest, i, content =>
    if canceledBefore i then ("", [])
    else if chunk = "" then chatStreamLoop canceledBefore rest (i + 1) content
    else
      let next := chatStreamLoop canceledBefore rest (i + 1) (content ++ chunk)
      (next.1, Effect.onStream chunk :: next.2)

/-- Embedding of `OpenAIClient.chatStream`: on provider failure it returns
early leaving the registry untouched; otherwise it registers the abort
callback, consumes the chunks (the external `cancel` having erased the entry
from `env.cancelAt` onwards), deletes the entry for `requestId`, and returns
`withDefault content undefined`. -/
def OpenAIClient.chatStream (r : Registry) (requestId : Option String)
    (cb : Nat) (env : ChatStreamEnv) :
    Registry × Option String × List Effect :=
  if env.streamOk = false then (r, none, [])
  else
    let r1 := match requestId with
      | some id => setCb r id cb
      | none => r
    let canceledBefore : Nat → Bool := fun i =>
      requestId.isSome &&
        (match env.cancelAt with
         | some j => decide (j ≤ i)
         | none => false)
    let consumed := chatStreamLoop canceledBefore env.chunks 0 ""
    let rMid := match env.cancelAt, requestId with
      | some _, some id => eraseCb r1 id
      | _, _ => r1
    let r2 := match requestId with
      | some id => eraseCb rMid id
      | none => rMid
    (r2, withDefault consumed.1 none, consumed.2)

/-- C5: `OpenAIClient.cancel(requestId)` invokes a registered callback exactly
once and removes its entry; with no registered callback it is a no-op and not
an error; in either case the registry afterwards holds no entry for
`requestId`. -/
theorem cancel_trigger_or_noop (r : Registry) (id : String) :
    (∀ cb, lookupCb r id = some cb →
      OpenAIClient.cancel r id = (eraseCb r id, [Effect.invokeAbort cb])) ∧
    (lookupCb r id = none → OpenAIClient.cancel r id = (r, [])) ∧
    lookupCb (OpenAIClient.cancel r id).1 id = none := by
  refine ⟨fun cb h => ?_, fun h => ?_, ?_⟩
  · simp [OpenAIClient.cancel, h]
  · simp [OpenAIClient.cancel, h]
  · unfold OpenAIClient.cancel
    cases h : lookupCb r id with
    | none => simpa using h
    | some cb => simpa using lookupCb_eraseCb r id

theorem cancel_trigger_or_noop_witness :
    OpenAIClient.cancel [("r", 7)] "r" = (([] : Registry), [Effect.invokeAbort 7]) ∧
    OpenAIClient.cancel [("r", 7)] "x" = ([("r", 7)], []) := by
  have h1 := (cancel_trigger_or_noop [("r", 7)] "r").1 7 (by decide)
  have h2 := (cancel_trigger_or_noop [("r", 7)] "x").2.1 (by decide)
  exact ⟨by simpa using h1, by simpa using h2⟩

/-- C4 (counterexample): when the provider rejects the streaming request,
`chatStream` returns on the early `if (!stream) return` path without touching
the registry, so a pre-existing entry for the same `requestId` survives the
call — the claim that the registry never holds an entry for the id after the
call returns is false at this input. -/
theorem chatStream_leaves_stale_entry :
    lookupCb (OpenAIClient.chatStream [("r", 7)] (some "r") 9
      { streamOk := false }).1 "r" = some 7 := by
  rfl

/-- C4 (amended): after `OpenAIClient.chat` returns the registry holds no
entry for the request id (on every path, whether the completion succeeded,
failed or was aborted); after `OpenAIClient.chatStream` returns the same holds
provided the stream was created or no entry for the id existed at call time —
on the stream-creation-failure path the registry is returned untouched. -/
theorem abortCallbacks_cleared (r : Registry) (id : String) (cb : Nat)
    (env : ChatEnv) (senv : ChatStreamEnv)
    (h : senv.streamOk = true ∨ lookupCb r id = none) :
    lookupCb (OpenAIClient.chat r (some id) cb env).1 id = none ∧
    lookupCb (OpenAIClient.chatStream r (some id) cb senv).1 id = none := by
  constructor
  · simp only [OpenAIClient.chat]
    exact lookupCb_eraseCb _ id
  · by_cases hs : senv.streamOk = false
    · rcases h with h | h
      · rw [hs] at h; cases h
      · simp [OpenAIClient.chatStream, hs, h]
    · simp only [OpenAIClient.chatStream, if_neg hs]
      exact lookupCb_eraseCb _ id

theorem abortCallbacks_cleared_witness :
    lookupCb (OpenAIClient.chat [("r", 7)] (some "r") 9 {}).1 "r" = none ∧
    lookupCb (OpenAIClient.chatStream [("r", 7)] (some "r") 9 {}).1 "r" = none :=
  abortCallbacks_cleared [("r", 7)] "r" 9 {} {} (Or.inl rfl)

/-- Behaviour of the chunk loop once the abort oracle fires at index `k`: the
chunks before `k` are streamed, the loop breaks at `k`, and the accumulated
content is reset to the empty string. -/
theorem chatStreamLoop_canceled (k : Nat) (cbf : Nat → Bool)
    (hcb : ∀ j, cbf j = decide (k ≤ j)) :
    ∀ (chunks : List String) (i : Nat) (content : String),
      i ≤ k → k < i + chunks.length →
      chatStreamLoop cbf chunks i content =
        ("", ((chunks.take (k - i)).filter (fun c => c != "")).map
          Effect.onStream) := by
  intro chunks
  induction chunks with
  | nil =>
    intro i content h1 h2
    simp only [List.length_nil, Nat.add_zero] at h2
    omega
  | cons chunk rest ih =>
    intro i content h1 h2
    by_cases hik : k ≤ i
    · have hk : k - i = 0 := Nat.sub_eq_zero_of_le hik
      simp [chatStreamLoop, hcb, hik, hk]
    · have h1' : i + 1 ≤ k := by omega
      have h2' : k < (i + 1) + rest.length := by
        simp only [List.length_cons] at h2; omega
      have hs : k - i = (k - (i + 1)) + 1 := by omega
      by_cases hc : chunk = ""
      · rw [hs]
        simp only [chatStreamLoop, hcb i, decide_eq_false hik,
          Bool.false_eq_true, if_false, if_pos hc, List.take_succ_cons,
          List.filter_cons]
        rw [ih (i + 1) content h1' h2']
        simp [hc]
      · rw [hs]
        simp only [chatStreamLoop, hcb i, decide_eq_false hik,
          Bool.false_eq_true, if_false, if_neg hc, List.take_succ_cons,
          List.filter_cons]
        rw [ih (i + 1) (content ++ chunk) h1' h2']
        simp [hc]

/-- C8: if the registry entry for the request id is removed while `chatStream`
is consuming chunks (removal effective from chunk index `k`, with chunks still
to come), the loop streams only the chunks before `k`, stops there, discards
all accumulated content, returns `undefined` instead of partial text, and the
registry afterwards holds no entry for the id; the embedding is a total
function, so no exception is raised. -/
theorem chatStream_canceled_discards (r : Registry) (id : String) (cb : Nat)
    (chunks : List String) (k : Nat) (hk : k < chunks.length) :
    (OpenAIClient.chatStream r (some id) cb
      { streamOk := true, chunks := chunks, cancelAt := some k }).2.1 = none ∧
    (OpenAIClient.chatStream r (some id) cb
      { streamOk := true, chunks := chunks, cancelAt := some k }).2.2 =
      ((chunks.take k).filter (fun c => c != "")).map Effect.onStream ∧
    lookupCb (OpenAIClient.chatStream r (some id) cb
      { streamOk := true, chunks := chunks, cancelAt := some k }).1 id =
      none := by
  have hloop := chatStreamLoop_canceled k
    (fun i => (some id : Option String).isSome &&
      (match (some k : Option Nat) with
       | some j => decide (j ≤ i)
       | none => false))
    (fun j => by simp) chunks 0 "" (Nat.zero_le k) (by simpa using hk)
  refine ⟨?_, ?_, ?_⟩
  · simp only [OpenAIClient.chatStream, Bool.true_eq_false, if_false]
    rw [hloop]
    rfl
  · simp only [OpenAIClient.chatStream, Bool.true_eq_false, if_false]
    rw [hloop]
    simp
  · simp only [OpenAIClient.chatStream, Bool.true_eq_false, if_false]
    exact lookupCb_eraseCb _ id

theorem chatStream_canceled_discards_witness :
    (OpenAIClient.chatStream [] (some "r") 0
      { streamOk := true, chunks := ["he", "", "llo", "x"],
        cancelAt := some 2 }).2.1 = none ∧
    (OpenAIClient.chatStream [] (some "r") 0
      { streamOk := true, chunks := ["he", "", "llo", "x"],
        cancelAt := some 2 }).2.2 = [Effect.onStream "he"] ∧
    lookupCb (OpenAIClient.chatStream [] (some "r") 0
      { streamOk := true, chunks := ["he", "", "llo", "x"],
        cancelAt := some 2 }).1 "r" = none := by
  have h := chatStream_canceled_discards [] "r" 0 ["he", "", "llo", "x"] 2
    (by decide)
  exact ⟨h.1, h.2.1.trans (by rfl), h.2.2⟩

/-! ## The `AISpeaker` command router (`ai.ts`) -/

/-- Tag naming the handler a command routes to. -/
inductive RunTag where
  | enterKeepAliveTag
  | exitKeepAliveTag
  | switchSpeakerTag
  | askAITag
  | customTag (n : Nat)
deriving DecidableEq, Repr

/-- A `SpeakerCommand`: a predicate on the incoming message and the handler it
routes to. -/
structure SpeakerCommand where
  matchFn : QueryMessage → Bool
  runTag : RunTag

/-- State of an `AISpeaker` instance: the fields of the class (and of its
`Speaker` base) read by the embedded methods. `customCommands` is the
`_commands` list filled by `addCommand`. -/
structure AISpeakerState where
  keepAlive : Bool := false
  status : String := "running"
  streamResponse : Bool := true
  audioBeep : Bool := false
  name : String := "傻妞"
  callAIKeywords : List String := ["请", "你", "傻妞"]
  wakeUpKeywords : List String := ["打开", "进入", "召唤"]
  exitKeywords : List String := ["关闭", "退出", "再见"]
  switchSpeakerKeywords : List String := []
  onEnterAI : List String := ["你好，我是傻妞，很高兴认识你"]
  onExitAI : List String := ["傻妞已退出"]
  onAIAsking : List String := ["让我先想想", "请稍等"]
  onAIReplied : List String := ["我说完了", "还有其他问题吗"]
  onAIError : List String := ["啊哦，出错了，请稍后再试吧！"]
  audioActive : Option String := none
  audioError : Option String := none
  customCommands : List SpeakerCommand := []

/-- Embedding of the `AISpeaker.commands` getter: the three built-in commands,
then the caller-registered `_commands`, then the ask-AI fallback. -/
def AISpeaker.commands (s : AISpeakerState) : List SpeakerCommand :=
  [ { matchFn := fun msg =>
        !s.keepAlive && s.wakeUpKeywords.any (fun e => msg.text.startsWith e),
      runTag := RunTag.enterKeepAliveTag },
    { matchFn := fun msg =>
        s.keepAlive && s.exitKeywords.any (fun e => msg.text.startsWith e),
      runTag := RunTag.exitKeepAliveTag },
    { matchFn := fun msg =>
        s.switchSpeakerKeywords.any (fun e => msg.text.startsWith e),
      runTag := RunTag.switchSpeakerTag } ]
  ++ s.customCommands ++
  [ { matchFn := fun msg =>
        s.keepAlive || s.callAIKeywords.any (fun e => msg.text.startsWith e),
      runTag := RunTag.askAITag } ]

/-- C2: the command list is ordered wake, exit, speaker-switch, the registered
custom commands in registration order, then the ask-AI fallback; each built-in
match is exactly the stated literal prefix test on the utterance text. -/
theorem commands_order_and_matches (s : AISpeakerState) :
    ∃ wake exitCmd switch fallback,
      AISpeaker.commands s =
        [wake, exitCmd, switch] ++ s.customCommands ++ [fallback] ∧
      wake.runTag = RunTag.enterKeepAliveTag ∧
      (∀ m, wake.matchFn m = true ↔
        s.keepAlive = false ∧ ∃ e ∈ s.wakeUpKeywords, m.text.startsWith e) ∧
      exitCmd.runTag = RunTag.exitKeepAliveTag ∧
      (∀ m, exitCmd.matchFn m = true ↔
        s.keepAlive = true ∧ ∃ e ∈ s.exitKeywords, m.text.startsWith e) ∧
      switch.runTag = RunTag.switchSpeakerTag ∧
      (∀ m, switch.matchFn m = true ↔
        ∃ e ∈ s.switchSpeakerKeywords, m.text.startsWith e) ∧
      fallback.runTag = RunTag.askAITag ∧
      (∀ m, fallback.matchFn m = true ↔
        s.keepAlive = true ∨ ∃ e ∈ s.callAIKeywords, m.text.startsWith e) := by
  refine ⟨_, _, _, _, rfl, rfl, fun m => ?_, rfl, fun m => ?_, rfl,
    fun m => ?_, rfl, fun m => ?_⟩
  · simp [List.any_eq_true, Bool.and_eq_true, Bool.not_eq_true']
  · simp [List.any_eq_true, Bool.and_eq_true]
  · simp [List.any_eq_true]
  · simp [List.any_eq_true, Bool.or_eq_true]

/-! ## The answer pipeline (`AISpeaker._askAIForAnswerSteps` / `askAIForAnswer`) -/

/-- Modelled from the spec: `pickOne` (defined in `src/utils/base`, which is
absent from `src/`) picks one element of the list ("speak one of a configured
set of filler phrases"); the choice is driven by a seed, `none` on an empty
list. -/
def pickOne (seed : Nat) (xs : List String) : Option String :=
  if h : xs.length = 0 then none
  else some (xs.get ⟨seed % xs.length, Nat.mod_lt seed (Nat.pos_of_ne_zero h)⟩)

/-- The shared result bag (`data`) threaded through the pipeline steps.
`res = none` models a `null`/`undefined` playback outcome. -/
structure Bag where
  answer : Option SpeakerAnswer := none
  res : Option String := none
deriving DecidableEq, Repr

/-- A partial update returned by a step (the object spread into the bag):
`some v` means the key is present with value `v`. -/
structure BagUpdate where
  answer : Option (Option SpeakerAnswer) := none
  res : Option (Option String) := none
deriving DecidableEq, Repr

/-- Merging `data = { ...data, ...update }`. -/
def Bag.merge (d : Bag) (u : BagUpdate) : Bag :=
  { answer := u.answer.getD d.answer, res := u.res.getD d.res }

/-- The `{ stop?, data? }` value a step may resolve with. -/
structure StepRes where
  stop : Bool := false
  data : Option BagUpdate := none
deriving DecidableEq, Repr

/-- A pipeline step: given the message and the bag it yields its side effects
and either a resolved `{ stop?, data? } | void` value or a rejection. -/
abbrev AnswerStep := QueryMessage → Bag → List Effect × Except String (Option StepRes)

/-- External outcomes of one pipeline run: the seeds driving the three
`pickOne` calls, the result of `this.askAI?.(msg)` (a rejection models the
promise rejecting), and the value `this.response({...answer})` resolves
with. -/
structure AnswerEnv where
  seedAsking : Nat := 0
  seedReplied : Nat := 0
  seedError : Nat := 0
  askAIResult : Except String (Option SpeakerAnswer) := Except.ok none
  playResult : Option String := none
deriving Repr

/-- Embedding of `AISpeaker._askAIForAnswerSteps`: the fixed six-step list.
JavaScript truthiness of the picked phrase makes an empty string silent. -/
def askAIForAnswerSteps (s : AISpeakerState) (env : AnswerEnv) :
    List AnswerStep :=
  [ fun _msg _d =>
      (match pickOne env.seedAsking s.onAIAsking with
       | some t =>
         if t = "" then []
         else [Effect.respond { text := some t, audio := s.audioActive }]
       | none => [], Except.ok none),
    fun msg _d =>
      match env.askAIResult with
      | Except.error e => ([Effect.askAI msg], Except.error e)
      | Except.ok a =>
        ([Effect.askAI msg],
         Except.ok (some { data := some { answer := some a } })),
    fun _msg d =>
      match d.answer with
      | some a =>
        ([Effect.respondAnswer a],
         Except.ok (some { data := some { answer := some d.answer, res := some env.playResult } }))
      | none => ([], Except.ok none),
    fun _msg d =>
      (if d.answer.isSome && d.res.isNone && !s.audioBeep && s.streamResponse
       then
         match pickOne env.seedReplied s.onAIReplied with
         | some t =>
           if t = "" then [] else [Effect.respond { text := some t }]
         | none => []
       else [], Except.ok none),
    fun _msg d =>
      (if d.res = some "error" then
         match pickOne env.seedError s.onAIError with
         | some t =>
           if t = "" then []
           else [Effect.respond { text := some t, audio := s.audioError }]
         | none => []
       else [], Except.ok none),
    fun _msg _d =>
      (if s.keepAlive then [Effect.wakeUp] else [], Except.ok none) ]

/-- Applying `if (res?.data) data = { ...data, ...res.data }` to the bag. -/
def stepBag (d : Bag) : Option StepRes → Bag
  | some sr =>
    match sr.data with
    | some u => d.merge u
    | none => d
  | none => d

/-- Reading `res?.stop`. -/
def stepStop : Option StepRes → Bool
  | some sr => sr.stop
  | none => false

/-- The loop body of `askAIForAnswer`: run the step, then — in this order —
propagate a rejection, consult the guard (`hasNewMsg() || status !== "running"`
at the checkpoint after the step at absolute index `i`) and return, merge the
returned partial data into the bag, honour `stop`. The result is the effect
trace, the number of steps entered, and the escaped rejection if any. -/
def runAnswerSteps (msg : QueryMessage) (guard : Nat → Bool) :
    List AnswerStep → Nat → Bag → List Effect × Nat × Option String
  | [], _, _ => ([], 0, none)
  | step :: rest, i, d =>
    match step msg d with
    | (effs, Except.error e) => (effs, 1, some e)
    | (effs, Except.ok r) =>
      if guard i then (effs, 1, none)
      else if stepStop r then (effs, 1, none)
      else
        let next := runAnswerSteps msg guard rest (i + 1) (stepBag d r)
        (effs ++ next.1, next.2.1 + 1, next.2.2)

/-- Reference run of the first `n` steps with no guard: the committed effects
of a prefix of the pipeline. -/
def runAnswerPrefix (msg : QueryMessage) :
    List AnswerStep → Nat → Bag → List Effect
  | _, 0, _ => []
  | [], _ + 1, _ => []
  | step :: rest, n + 1, d =>
    match step msg d with
    | (effs, Except.error _) => effs
    | (effs, Except.ok r) => effs ++ runAnswerPrefix msg rest n (stepBag d r)

/-- Embedding of `AISpeaker.askAIForAnswer`: the six steps run from an empty
bag; after every step the supersession guard re-reads `hasNewMsg()` and
`this.status` (both given as oracles indexed by the checkpoint). -/
def askAIForAnswer (s : AISpeakerState) (env : AnswerEnv) (msg : QueryMessage)
    (hasNewMsgAt : Nat → Bool) (statusAt : Nat → String) :
    List Effect × Nat × Option String :=
  runAnswerSteps msg (fun i => hasNewMsgAt i || (statusAt i != "running"))
    (askAIForAnswerSteps s env) 0 {}

/-- The trace of a guarded run is exactly the committed effects of the prefix
of steps it entered: nothing is rolled back and nothing extra appears. -/
theorem runAnswerSteps_trace (msg : QueryMessage) (guard : Nat → Bool) :
    ∀ (steps : List AnswerStep) (i : Nat) (d : Bag),
      (runAnswerSteps msg guard steps i d).1 =
        runAnswerPrefix msg steps (runAnswerSteps msg guard steps i d).2.1 d := by
  intro steps
  induction steps with
  | nil => intro i d; rfl
  | cons step rest ih =>
    intro i d
    simp only [runAnswerSteps]
    cases hstep : step msg d with
    | mk effs r =>
      cases r with
      | error e => simp [runAnswerPrefix, hstep]
      | ok res =>
        dsimp only
        by_cases hg : guard i
        · simp [hg, runAnswerPrefix, hstep]
        · rw [if_neg hg]
          cases hstopd : stepStop res with
          | true => simp [hstopd, runAnswerPrefix, hstep]
          | false =>
            simp only [hstopd, Bool.false_eq_true, if_false]
            simp only [runAnswerPrefix, hstep]
            rw [ih]

/-- If the guard is raised at some checkpoint `k` at or beyond the starting
index, at most `k - i + 1` steps are entered. -/
theorem runAnswerSteps_count_le (msg : QueryMessage) (guard : Nat → Bool) :
    ∀ (steps : List AnswerStep) (i : Nat) (d : Bag) (k : Nat),
      i ≤ k → guard k = true →
      (runAnswerSteps msg guard steps i d).2.1 ≤ k - i + 1 := by
  intro steps
  induction steps with
  | nil => intro i d k _ _; simp [runAnswerSteps]
  | cons step rest ih =>
    intro i d k hik hgk
    simp only [runAnswerSteps]
    cases hstep : step msg d with
    | mk effs r =>
      cases r with
      | error e => simp
      | ok res =>
        dsimp only
        by_cases hg : guard i
        · simp [hg]
        · have hne : i ≠ k := fun h => hg (h ▸ hgk)
          have hik' : i + 1 ≤ k := by omega
          rw [if_neg hg]
          cases hstopd : stepStop res with
          | true => simp [hstopd]
          | false =>
            simp only [hstopd, Bool.false_eq_true, if_false]
            have hrec := ih (i + 1) (stepBag d res) k hik' hgk
            omega

/-- C1: if after step `k + 1` of the six-step pipeline (checkpoint index `k`)
a new user message has arrived since the snapshot taken before step 1, or the
speaker status is no longer `"running"`, then at most `k + 1` of the six steps
are entered — the later steps never execute — while the effect trace is
exactly the committed effects of the steps that did run, observed once each
and never rolled back. -/
theorem askAIForAnswer_supersession (s : AISpeakerState) (env : AnswerEnv)
    (msg : QueryMessage) (hasNewMsgAt : Nat → Bool) (statusAt : Nat → String)
    (k : Nat) (_hk : k < 6)
    (htrig : hasNewMsgAt k = true ∨ statusAt k ≠ "running") :
    (askAIForAnswer s env msg hasNewMsgAt statusAt).2.1 ≤ k + 1 ∧
    (askAIForAnswer s env msg hasNewMsgAt statusAt).1 =
      runAnswerPrefix msg (askAIForAnswerSteps s env)
        (askAIForAnswer s env msg hasNewMsgAt statusAt).2.1 {} := by
  have hguard : (hasNewMsgAt k || (statusAt k != "running")) = true := by
    rcases htrig with h | h
    · simp [h]
    · simp [h]
  constructor
  · simpa using runAnswerSteps_count_le msg
      (fun i => hasNewMsgAt i || (statusAt i != "running"))
      (askAIForAnswerSteps s env) 0 {} k (Nat.zero_le k) hguard
  · exact runAnswerSteps_trace msg _ (askAIForAnswerSteps s env) 0 {}

theorem askAIForAnswer_supersession_witness :
    (askAIForAnswer {} {} ⟨"天气", 1⟩ (fun _ => true) (fun _ => "running")).2.1
      ≤ 1 ∧
    (askAIForAnswer {} {} ⟨"天气", 1⟩ (fun _ => true) (fun _ => "running")).1 =
      runAnswerPrefix ⟨"天气", 1⟩ (askAIForAnswerSteps {} {})
        (askAIForAnswer {} {} ⟨"天气", 1⟩ (fun _ => true)
          (fun _ => "running")).2.1 {} :=
  askAIForAnswer_supersession {} {} ⟨"天气", 1⟩ (fun _ => true)
    (fun _ => "running") 0 (by decide) (Or.inl rfl)

/-- Shape of the effect list produced by the speak-a-phrase pattern
`const text = pickOne(...); if (text) await this.response(...)`. -/
theorem phrase_effects_iff (pick : Option String) (mk : String → Effect)
    (effs : List Effect)
    (heffs : effs = match pick with
      | some t => if t = "" then [] else [mk t]
      | none => []) :
    effs ≠ [] ↔ ∃ t, pick = some t ∧ t ≠ "" ∧ effs = [mk t] := by
  subst heffs
  cases pick with
  | none => simp
  | some t =>
    by_cases ht : t = ""
    · simp [ht]
    · simp [ht]

/-- C3: `_askAIForAnswerSteps` is the fixed ordered six-step list — think
filler, invoke `askAI` recording the answer, play an obtained answer recording
the playback result, speak the done phrase exactly when an answer exists with
a null playback result while `audioBeep` is off and `streamResponse` on, speak
the error phrase with the error audio cue exactly when the playback result is
`"error"`, and re-wake the device exactly when `keepAlive` holds. -/
theorem askAIForAnswerSteps_fixed (s : AISpeakerState) (env : AnswerEnv) :
    ∃ think invoke play done speakError rewake,
      askAIForAnswerSteps s env =
        [think, invoke, play, done, speakError, rewake] ∧
      (∀ msg d, (think msg d).2 = Except.ok none ∧
        ((think msg d).1 ≠ [] ↔ ∃ t,
          pickOne env.seedAsking s.onAIAsking = some t ∧ t ≠ "" ∧
          (think msg d).1 =
            [Effect.respond { text := some t, audio := s.audioActive }])) ∧
      (∀ msg d, (invoke msg d).1 = [Effect.askAI msg] ∧
        ∀ a, env.askAIResult = Except.ok a →
          (invoke msg d).2 =
            Except.ok (some { data := some { answer := some a } })) ∧
      (∀ msg d,
        (d.answer = none → play msg d = ([], Except.ok none)) ∧
        (∀ a, d.answer = some a → play msg d =
          ([Effect.respondAnswer a],
           Except.ok (some { data := some { answer := some d.answer, res := some env.playResult } })))) ∧
      (∀ msg d, (done msg d).2 = Except.ok none ∧
        ((done msg d).1 ≠ [] →
          d.answer.isSome = true ∧ d.res = none ∧ s.audioBeep = false ∧
            s.streamResponse = true) ∧
        (d.answer.isSome = true → d.res = none → s.audioBeep = false →
          s.streamResponse = true →
          ((done msg d).1 ≠ [] ↔ ∃ t,
            pickOne env.seedReplied s.onAIReplied = some t ∧ t ≠ "" ∧
            (done msg d).1 = [Effect.respond { text := some t }]))) ∧
      (∀ msg d, (speakError msg d).2 = Except.ok none ∧
        ((speakError msg d).1 ≠ [] → d.res = some "error") ∧
        (d.res = some "error" →
          ((speakError msg d).1 ≠ [] ↔ ∃ t,
            pickOne env.seedError s.onAIError = some t ∧ t ≠ "" ∧
            (speakError msg d).1 =
              [Effect.respond { text := some t, audio := s.audioError }]))) ∧
      (∀ msg d, rewake msg d =
        (if s.keepAlive then [Effect.wakeUp] else [], Except.ok none)) := by
  refine ⟨_, _, _, _, _, _, rfl, ?_, ?_, ?_, ?_, ?_, ?_⟩
  · intro msg d
    exact ⟨rfl, phrase_effects_iff _ _ _ rfl⟩
  · intro msg d
    constructor
    · cases h : env.askAIResult <;> simp [h]
    · intro a ha
      simp [ha]
  · intro msg d
    constructor
    · intro h; simp [h]
    · intro a ha; simp [ha]
  · intro msg d
    refine ⟨rfl, ?_, ?_⟩
    · intro hne
      by_cases hc : (d.answer.isSome && d.res.isNone && !s.audioBeep &&
          s.streamResponse) = true
      · simp only [Bool.and_eq_true, Bool.not_eq_true',
          Option.isNone_iff_eq_none] at hc
        exact ⟨hc.1.1.1, hc.1.1.2, hc.1.2, hc.2⟩
      · exact absurd (by simp [hc]) hne
    · intro h1 h2 h3 h4
      have hb : (d.answer.isSome && d.res.isNone && !s.audioBeep &&
          s.streamResponse) = true := by
        simp [h1, h2, h3, h4]
      exact phrase_effects_iff _ _ _ (by simp [hb])
  · intro msg d
    refine ⟨rfl, ?_, ?_⟩
    · intro hne
      by_cases hr : d.res = some "error"
      · exact hr
      · exact absurd (by simp [hr]) hne
    · intro hr
      exact phrase_effects_iff _ _ _ (by simp [hr])
  · intro msg d
    rfl

/-- C6 (counterexample): with the model invocation rejecting (step 2 of the
pipeline throwing), the rejection escapes `askAIForAnswer` — after step 2 the
run ends with the error propagating, instead of the pipeline treating the step
as having produced no data and proceeding to the next step. -/
theorem askAIForAnswer_rejection_escapes :
    (askAIForAnswer {} { askAIResult := Except.error "boom" } ⟨"请问", 2⟩
      (fun _ => false) (fun _ => "running")).2.2 = some "boom" ∧
    (askAIForAnswer {} { askAIResult := Except.error "boom" } ⟨"请问", 2⟩
      (fun _ => false) (fun _ => "running")).2.1 = 2 := by
  exact ⟨rfl, rfl⟩

/-- C6 (amended): generation failures are absorbed inside the gateway client
(`chat`/`chatStream` catch provider errors and resolve with `null`/
`undefined`), so a failed model invocation reaches the pipeline as a resolved
absent answer: step 2 records no answer and the remaining steps act on the
absence — all six steps run, nothing escapes, and no playback is started.
`askAIForAnswer` itself installs no handler at the step boundary, so a step
whose promise actually rejects escapes the pipeline (see the
counterexample). -/
theorem askAIForAnswer_absent_answer (s : AISpeakerState) (env : AnswerEnv)
    (msg : QueryMessage) (hga : env.askAIResult = Except.ok none) :
    (askAIForAnswer s env msg (fun _ => false) (fun _ => "running")).2.1 = 6 ∧
    (askAIForAnswer s env msg (fun _ => false) (fun _ => "running")).2.2 =
      none ∧
    ∀ a, Effect.respondAnswer a ∉
      (askAIForAnswer s env msg (fun _ => false) (fun _ => "running")).1 := by
  simp only [askAIForAnswer, askAIForAnswerSteps, runAnswerSteps, hga,
    bne_self_eq_false, Bool.or_false, Bool.false_or, Bool.false_eq_true,
    if_false, stepStop, stepBag, Bag.merge]
  refine ⟨rfl, rfl, ?_⟩
  intro a
  cases hp : pickOne env.seedAsking s.onAIAsking with
  | none => cases hka : s.keepAlive <;> simp [hp, hka]
  | some t =>
    by_cases ht : t = "" <;> cases hka : s.keepAlive <;> simp [hp, ht, hka]

theorem askAIForAnswer_absent_answer_witness :
    (askAIForAnswer {} {} ⟨"请问", 2⟩ (fun _ => false)
      (fun _ => "running")).2.1 = 6 ∧
    (askAIForAnswer {} {} ⟨"请问", 2⟩ (fun _ => false)
      (fun _ => "running")).2.2 = none ∧
    ∀ a, Effect.respondAnswer a ∉
      (askAIForAnswer {} {} ⟨"请问", 2⟩ (fun _ => false)
        (fun _ => "running")).1 :=
  askAIForAnswer_absent_answer {} {} ⟨"请问", 2⟩ rfl

/-! ## The stream-response callback (`MyBot.chatWithStreamResponse`) -/

/-- Status of a `StreamResponse` buffer, as described by the spec for
`src/services/speaker/stream` (absent from `src/`). -/
inductive StreamStatus where
  | pending
  | streaming
  | finished
  | canceled
  | timedOut
deriving DecidableEq, Repr

/-- Observable state of a `StreamResponse` buffer. -/
structure StreamState where
  status : StreamStatus := StreamStatus.pending
  content : String := ""
deriving DecidableEq, Repr

/-- Modelled from the spec: `StreamResponse.addResponse` (defined in
`src/services/speaker/stream`, which is absent from `src/`) appends the
incremental text, moves `pending → streaming` on the first chunk, and is
silently dropped in a terminal state. -/
def StreamResponse.addResponse (st : StreamState) (text : String) :
    StreamState :=
  match st.status with
  | StreamStatus.pending =>
    { status := StreamStatus.streaming, content := st.content ++ text }
  | StreamStatus.streaming => { st with content := st.content ++ text }
  | _ => st

/-- Embedding of the `onStream` callback installed by
`MyBot.chatWithStreamResponse`: a chunk arriving while the stream is canceled
is answered by `openai.cancel(requestId)` and the stream is left untouched;
otherwise the chunk is appended via `stream.addResponse(text)`. -/
def chatWithStreamResponseOnStream (st : StreamState) (requestId : String)
    (text : String) : StreamState × List Effect :=
  if st.status = StreamStatus.canceled then
    (st, [Effect.cancelRequest requestId])
  else
    (StreamResponse.addResponse st text, [Effect.addResponse text])

/-- C7: a chunk delivered by the gateway while `stream.status` is
`"canceled"` is not appended — `addResponse` is not called and the stream
state is left exactly as it was — and the in-flight request is canceled via
`openai.cancel(requestId)` instead. -/
theorem onStream_canceled_drops_chunk (st : StreamState) (requestId : String)
    (text : String) (h : st.status = StreamStatus.canceled) :
    chatWithStreamResponseOnStream st requestId text =
      (st, [Effect.cancelRequest requestId]) ∧
    Effect.addResponse text ∉
      (chatWithStreamResponseOnStream st requestId text).2 := by
  constructor
  · simp [chatWithStreamResponseOnStream, h]
  · simp [chatWithStreamResponseOnStream, h]

theorem onStream_canceled_drops_chunk_witness :
    chatWithStreamResponseOnStream
        { status := StreamStatus.canceled, content := "早" } "r" "安" =
      ({ status := StreamStatus.canceled, content := "早" }, [Effect.cancelRequest "r"]) ∧
    Effect.addResponse "安" ∉
      (chatWithStreamResponseOnStream
        { status := StreamStatus.canceled, content := "早" } "r" "安").2 :=
  onStream_canceled_drops_chunk
    { status := StreamStatus.canceled, content := "早" } "r" "安" rfl

/-! ## `AISpeaker.enterKeepAlive` -/

/-- Modelled from the spec: `Speaker.enterKeepAlive` (the superclass method in
`src/services/speaker/speaker`, absent from `src/`) drives the keep-alive
state machine `idle → active`, arming continuous listening. -/
def Speaker.enterKeepAlive (s : AISpeakerState) : AISpeakerState × List Effect :=
  ({ s with keepAlive := true }, [Effect.superEnterKeepAlive])

/-- Embedding of `AISpeaker.enterKeepAlive`: without `streamResponse` it only
speaks the unavailability notice and returns; otherwise it speaks an
enter-phrase and invokes the superclass method. -/
def AISpeaker.enterKeepAlive (s : AISpeakerState) (seed : Nat) :
    AISpeakerState × List Effect :=
  if !s.streamResponse then
    (s, [Effect.respond
      { text := some "您已关闭流式响应(streamResponse)，无法使用连续对话模式" }])
  else
    let phrase := match pickOne seed s.onEnterAI with
      | some t =>
        if t = "" then []
        else [Effect.respond { text := some t, keepAlive := some true }]
      | none => []
    let sup := Speaker.enterKeepAlive s
    (sup.1, phrase ++ sup.2)

/-- C9: with `streamResponse` disabled, `enterKeepAlive` speaks only the
unavailability notice and returns with the state unchanged — the superclass
`enterKeepAlive` is not invoked and no enter-phrase is spoken; conversely the
superclass method is only ever invoked when `streamResponse` is enabled. -/
theorem enterKeepAlive_guarded (s : AISpeakerState) (seed : Nat) :
    (s.streamResponse = false →
      AISpeaker.enterKeepAlive s seed = (s, [Effect.respond
        { text := some "您已关闭流式响应(streamResponse)，无法使用连续对话模式" }])) ∧
    (Effect.superEnterKeepAlive ∈ (AISpeaker.enterKeepAlive s seed).2 →
      s.streamResponse = true) := by
  constructor
  · intro h
    simp [AISpeaker.enterKeepAlive, h]
  · intro hmem
    by_cases h : s.streamResponse = true
    · exact h
    · rw [Bool.not_eq_true] at h
      simp [AISpeaker.enterKeepAlive, h] at hmem

theorem enterKeepAlive_guarded_witness :
    AISpeaker.enterKeepAlive { streamResponse := false } 0 =
      ({ streamResponse := false }, [Effect.respond
        { text := some "您已关闭流式响应(streamResponse)，无法使用连续对话模式" }]) ∧
    Effect.superEnterKeepAlive ∉
      (AISpeaker.enterKeepAlive { streamResponse := false } 0).2 := by
  have h := enterKeepAlive_guarded { streamResponse := false } 0
  refine ⟨h.1 rfl, fun hmem => ?_⟩
  have := h.2 hmem
  exact absurd this (by decide)

/-! ## Default switch-speaker keywords (`getDefaultSwitchSpeakerPrefix`) -/

/-- Embedding of the inner `generate(currentSentence, index)` recursion of
`generateSentences`: at each remaining group, each word in group order is
appended to the current sentence before recursing; a full sentence is emitted
when every group has been consumed. -/
def generateSentences : List (List String) → List String → List String
  | [], current => [String.join current]
  | group :: rest, current =>
    group.flatMap (fun w => generateSentences rest (current ++ [w]))

/-- Embedding of `getDefaultSwitchSpeakerPrefix` (`ai.ts`): the depth-first
enumeration over the four word groups. -/
def getDefaultSwitchSpeakerKeywords : List String :=
  generateSentences
    [["把", ""], ["音色", "声音"], ["切换", "换", "调"], ["到", "为", "成"]] []

/-- The optional fields of `AISpeakerConfig` consumed by the `AISpeaker`
constructor (`none` models an absent config entry). -/
structure AISpeakerConfig where
  name : Option String := none
  callAIKeywords : Option (List String) := none
  wakeUpKeywords : Option (List String) := none
  exitKeywords : Option (List String) := none
  onEnterAI : Option (List String) := none
  onExitAI : Option (List String) := none
  onAIAsking : Option (List String) := none
  onAIReplied : Option (List String) := none
  onAIError : Option (List String) := none
  switchSpeakerKeywords : Option (List String) := none
  audioActive : Option String := none
  audioError : Option String := none

/-- Embedding of the `AISpeaker` constructor field assignments: each config
entry defaulted as in the source, and `switchSpeakerKeywords` falling back to
the generated default prefixes; `base` carries the `Speaker` superclass
state. -/
def mkAISpeaker (base : AISpeakerState) (cfg : AISpeakerConfig) :
    AISpeakerState :=
  { base with
    name := cfg.name.getD "傻妞"
    callAIKeywords := cfg.callAIKeywords.getD ["请", "你", "傻妞"]
    wakeUpKeywords := cfg.wakeUpKeywords.getD ["打开", "进入", "召唤"]
    exitKeywords := cfg.exitKeywords.getD ["关闭", "退出", "再见"]
    onEnterAI := cfg.onEnterAI.getD ["你好，我是傻妞，很高兴认识你"]
    onExitAI := cfg.onExitAI.getD ["傻妞已退出"]
    onAIAsking := cfg.onAIAsking.getD ["让我先想想", "请稍等"]
    onAIReplied := cfg.onAIReplied.getD ["我说完了", "还有其他问题吗"]
    onAIError := cfg.onAIError.getD ["啊哦，出错了，请稍后再试吧！"]
    audioActive := cfg.audioActive
    audioError := cfg.audioError
    switchSpeakerKeywords :=
      cfg.switchSpeakerKeywords.getD getDefaultSwitchSpeakerKeywords }

/-- The enumeration the claim describes: one word from each of the four groups
in group order, enumerated in nested left-to-right order. -/
def claimedSwitchSpeakerKeywords : List String :=
  ["把", ""].flatMap fun a =>
    ["音色", "声音"].flatMap fun b =>
      ["切换", "换", "调"].flatMap fun c =>
        ["到", "为", "成"].map fun d => a ++ b ++ c ++ d

/-- C10: when the configuration supplies no `switchSpeakerKeywords`, the
constructor falls back to the 36 prefixes obtained by concatenating one word
from each of the four groups in nested left-to-right order. -/
theorem switchSpeakerKeywords_default (base : AISpeakerState)
    (cfg : AISpeakerConfig) (h : cfg.switchSpeakerKeywords = none) :
    (mkAISpeaker base cfg).switchSpeakerKeywords =
      claimedSwitchSpeakerKeywords ∧
    claimedSwitchSpeakerKeywords.length = 36 ∧
    claimedSwitchSpeakerKeywords =
      ["把音色切换到", "把音色切换为", "把音色切换成",
       "把音色换到", "把音色换为", "把音色换成",
       "把音色调到", "把音色调为", "把音色调成",
       "把声音切换到", "把声音切换为", "把声音切换成",
       "把声音换到", "把声音换为", "把声音换成",
       "把声音调到", "把声音调为", "把声音调成",
       "音色切换到", "音色切换为", "音色切换成",
       "音色换到", "音色换为", "音色换成",
       "音色调到", "音色调为", "音色调成",
       "声音切换到", "声音切换为", "声音切换成",
       "声音换到", "声音换为", "声音换成",
       "声音调到", "声音调为", "声音调成"] := by
  refine ⟨?_, by decide, by decide⟩
  simp only [mkAISpeaker, h, Option.getD_none]
  decide

theorem switchSpeakerKeywords_default_witness :
    (mkAISpeaker {} {}).switchSpeakerKeywords =
      claimedSwitchSpeakerKeywords ∧
    claimedSwitchSpeakerKeywords.length = 36 :=
  ⟨(switchSpeakerKeywords_default {} {} rfl).1,
   (switchSpeakerKeywords_default {} {} rfl).2.1⟩

end MiGPT
